import Mathlib

/-!
Verification of the Accera GPU lowering stage (AcceraToGPUPass.cpp and
GpuDialectCppPrinter.cpp) against its natural-language specification.

The definitions below are a shallow embedding of the C++ source:
pattern `matchAndRewrite` bodies become pure Lean functions returning
`Option`/outcome types (`none` models `failure()` / `notifyMatchFailure`),
MLIR attribute lookups become explicit `Option` parameters, and the IR
that the patterns rewrite is modelled by small inductive types.
-/

namespace AcceraGPU

/-! ## Barrier scopes and barrier op selection

`Modelled from the spec:` the `vir::BarrierScope` enumeration is declared in
`ValueEnums.h`, which is not among the provided sources.  The spec's data
model (§3) says a barrier is "tagged with a scope — block-wide, warp-wide
(\"subgroup\"), or memory-fence-only (\"threadfence\")", so the enum has
exactly these three values. -/
inductive BarrierScope where
  | Block
  | Warp
  | Threadfence
  deriving DecidableEq, Repr

/-- SPIR-V execution/memory scopes used by the barrier conversion
(`mlir::spirv::Scope`). -/
inductive SpirvScope where
  | Workgroup
  | Subgroup
  deriving DecidableEq, Repr

/-- The SPIR-V memory-semantics flags that appear in the conversion. -/
inductive SpirvMemorySemantics where
  | AcquireRelease
  | SubgroupMemory
  deriving DecidableEq, Repr

/-- The op that `ValueBarrierToSPIRVBarrierConversion` replaces a barrier
with: a `spirv.ControlBarrier` with an execution scope, a memory scope and
a set of memory-semantics flags. -/
structure SpirvControlBarrier where
  executionScope : SpirvScope
  memoryScope : SpirvScope
  memorySemantics : List SpirvMemorySemantics
  deriving DecidableEq, Repr

/-- Embedding of `ValueBarrierToSPIRVBarrierConversion::matchAndRewrite`
(AcceraToGPUPass.cpp lines 245–275).  `none` models
`rewriter.notifyMatchFailure(op, "Unhandled barrier scope.")`. -/
def valueBarrierToSPIRVBarrierConversion (scope : BarrierScope) :
    Option SpirvControlBarrier :=
  match scope with
  | BarrierScope.Block =>
      some ⟨SpirvScope.Workgroup, SpirvScope.Workgroup,
            [SpirvMemorySemantics.AcquireRelease]⟩
  | BarrierScope.Warp =>
      some ⟨SpirvScope.Subgroup, SpirvScope.Subgroup,
            [SpirvMemorySemantics.AcquireRelease,
             SpirvMemorySemantics.SubgroupMemory]⟩
  | _ => none

/-- The op that `ValueBarrierToGPUBarrierConversion` replaces a barrier
with: either `gpu.barrier` or an `llvm.fence` with an atomic ordering and
a synchronization scope string. -/
inductive GpuBarrierLowering where
  | gpuBarrier
  | llvmFence (ordering : String) (syncScope : String)
  deriving DecidableEq, Repr

/-- Embedding of `ValueBarrierToGPUBarrierConversion::matchAndRewrite`
(AcceraToGPUPass.cpp lines 277–297), used on both the ROCDL and NVVM
pipelines.  `none` models
`rewriter.notifyMatchFailure(op, "Unhandled barrier scope.")`. -/
def valueBarrierToGPUBarrierConversion (scope : BarrierScope) :
    Option GpuBarrierLowering :=
  match scope with
  | BarrierScope.Block => some GpuBarrierLowering.gpuBarrier
  | BarrierScope.Threadfence =>
      some (GpuBarrierLowering.llvmFence "seq_cst" "agent")
  | _ => none

/-! ## Dimension queries (printer and ResolveBlockDimPattern) -/

/-- Embedding of `dimIndexToInteger` (defined identically in
AcceraToGPUPass.cpp lines 95–102 and GpuDialectCppPrinter.cpp lines
42–49): a `StringSwitch` mapping "x"/"y"/"z" to 0/1/2 and anything else
to -1. -/
def dimIndexToInteger (dim : String) : Int :=
  if dim = "x" then 0
  else if dim = "y" then 1
  else if dim = "z" then 2
  else -1

/-- A declared three-integer size attribute, cf. `Dim3` in
ExecutionOptions.h. -/
structure Dim3 where
  x : Int
  y : Int
  z : Int
  deriving DecidableEq, Repr

/-- Indexing a size triple by the axis index produced by
`dimIndexToInteger`; mirrors `arrayAttr[idx]` on the three-element
"blockSize"/"gridSize" array attributes (only reached with idx ∈ {0,1,2}). -/
def Dim3.get (d : Dim3) (idx : Int) : Int :=
  if idx = 0 then d.x else if idx = 1 then d.y else d.z

/-- Embedding of the printer helper `getBlockDim` (GpuDialectCppPrinter.cpp
lines 68–82): `blockSize` is the enclosing function's "blockSize" array
attribute when the op has an enclosing function carrying one (`none`
otherwise); an axis string outside x/y/z yields `llvm::None`. -/
def getBlockDim (blockSize : Option Dim3) (dim : String) : Option Int :=
  match blockSize with
  | none => none
  | some bs =>
      let idx := dimIndexToInteger dim
      if idx = -1 then none else some (bs.get idx)

/-- What the printer emits for an index query: either a raw hardware
register read, that read taken modulo a constant, or an integer literal. -/
inductive PrintedIndex where
  | rawRead (reg : String)
  | modRead (reg : String) (bound : Int)
  | lit (value : Int)
  deriving DecidableEq, Repr

/-- Embedding of `GpuDialectCppPrinter::printOp(ThreadIdOp)`
(GpuDialectCppPrinter.cpp lines 160–183): with a known block dimension the
printer emits `(threadIdx.<dim> % c)`, otherwise the raw
`threadIdx.<dim>`. -/
def printThreadIdOp (blockSize : Option Dim3) (dim : String) : PrintedIndex :=
  match getBlockDim blockSize dim with
  | some c => PrintedIndex.modRead ("threadIdx." ++ dim) c
  | none => PrintedIndex.rawRead ("threadIdx." ++ dim)

/-- Embedding of `GpuDialectCppPrinter::printOp(BlockDimOp)`
(GpuDialectCppPrinter.cpp lines 109–132): with a known block dimension the
printer emits the constant itself, otherwise the raw `blockDim.<dim>`. -/
def printBlockDimOp (blockSize : Option Dim3) (dim : String) : PrintedIndex :=
  match getBlockDim blockSize dim with
  | some c => PrintedIndex.lit c
  | none => PrintedIndex.rawRead ("blockDim." ++ dim)

/-- Embedding of `ResolveBlockDimPattern::matchAndRewrite`
(AcceraToGPUPass.cpp lines 731–752).  `inGpuFunc` is whether the op has a
`gpu::GPUFuncOp` parent, `blockSizeAttr` that function's "blockSize" array
attribute.  `some v` models `replaceOpWithNewOp<ConstantIndexOp>(op, v)`;
`none` models `failure()` (the op is left as the raw hardware read). -/
def resolveBlockDimPattern (inGpuFunc : Bool) (blockSizeAttr : Option Dim3)
    (dim : String) : Option Int :=
  if !inGpuFunc then none
  else
    match blockSizeAttr with
    | none => none
    | some bs =>
        let blockDimIdx := dimIndexToInteger dim
        if blockDimIdx = -1 then none
        else some (bs.get blockDimIdx)

/-! ## Barrier hoisting out of conditionals

`ConditionalBarrierHoistingPattern` (AcceraToGPUPass.cpp lines 753–795)
rewrites each `vir::BarrierOp`: if the barrier has an `affine.if` or
`scf.if` ancestor, the barrier is cloned immediately before and
immediately after the highest such ancestor and the original is erased;
otherwise the op is left unchanged.  The IR tree that the pattern walks is
modelled by `GOp`: barriers, the two conditional kinds (each holding a
then-region and an else-region of ops), other region-holding ops such as
loops (`forOp`), and region-free ops (`leaf`). -/
inductive GOp where
  | barrier (scope : BarrierScope)
  | affineIf (thenBlk elseBlk : List GOp)
  | scfIf (thenBlk elseBlk : List GOp)
  | forOp (body : List GOp)
  | leaf
  deriving Repr

/-- Whether an op is one of the two conditional constructs the hoisting
pattern searches for (`mlir::AffineIfOp` / `mlir::scf::IfOp`). -/
def isConditionalOp : GOp → Bool
  | GOp.affineIf _ _ => true
  | GOp.scfIf _ _ => true
  | _ => false

mutual
/-- The scopes of all barrier ops contained (at any depth) in an op's
regions, in occurrence order; for a barrier op itself, its own scope. -/
def barrierScopesOp : GOp → List BarrierScope
  | GOp.barrier s => [s]
  | GOp.affineIf t e => barrierScopesBlk t ++ barrierScopesBlk e
  | GOp.scfIf t e => barrierScopesBlk t ++ barrierScopesBlk e
  | GOp.forOp b => barrierScopesBlk b
  | GOp.leaf => []

/-- The scopes of all barrier ops contained (at any depth) in a block. -/
def barrierScopesBlk : List GOp → List BarrierScope
  | [] => []
  | op :: rest => barrierScopesOp op ++ barrierScopesBlk rest
end

mutual
/-- Erasing every barrier contained (at any depth) in an op: for a
barrier this yields nothing, for region-holding ops the regions are
purged recursively.  This is the cumulative effect of
`rewriter.eraseOp(op)` on every barrier whose highest conditional
ancestor is the purged conditional. -/
def purgeOp : GOp → List GOp
  | GOp.barrier _ => []
  | GOp.affineIf t e => [GOp.affineIf (purgeBlk t) (purgeBlk e)]
  | GOp.scfIf t e => [GOp.scfIf (purgeBlk t) (purgeBlk e)]
  | GOp.forOp b => [GOp.forOp (purgeBlk b)]
  | GOp.leaf => [GOp.leaf]

/-- Erasing every barrier contained (at any depth) in a block. -/
def purgeBlk : List GOp → List GOp
  | [] => []
  | op :: rest => purgeOp op ++ purgeBlk rest
end

mutual
/-- The result of applying `ConditionalBarrierHoistingPattern` greedily to
every barrier of an op until no barrier has a conditional ancestor: each
barrier whose highest conditional ancestor is this conditional is cloned
immediately before and immediately after it (`rewriter.setInsertionPoint`
/ `setInsertionPointAfter` at the ancestor, lines 785–788) and erased from
inside it (line 790); a barrier under no conditional is untouched.  Clones
of distinct barriers are listed in occurrence order (the greedy driver's
application order is not specified; the claims proved below do not depend
on it). -/
def hoistOp : GOp → List GOp
  | GOp.barrier s => [GOp.barrier s]
  | GOp.affineIf t e =>
      ((barrierScopesBlk t ++ barrierScopesBlk e).map GOp.barrier)
        ++ [GOp.affineIf (purgeBlk t) (purgeBlk e)]
        ++ ((barrierScopesBlk t ++ barrierScopesBlk e).map GOp.barrier)
  | GOp.scfIf t e =>
      ((barrierScopesBlk t ++ barrierScopesBlk e).map GOp.barrier)
        ++ [GOp.scfIf (purgeBlk t) (purgeBlk e)]
        ++ ((barrierScopesBlk t ++ barrierScopesBlk e).map GOp.barrier)
  | GOp.forOp b => [GOp.forOp (hoistBlk b)]
  | GOp.leaf => [GOp.leaf]

/-- Greedy barrier hoisting applied throughout a block. -/
def hoistBlk : List GOp → List GOp
  | [] => []
  | op :: rest => hoistOp op ++ hoistBlk rest
end

mutual
/-- No barrier inside this op has a conditional ancestor: every
conditional contained in the op (at any depth) contains zero barriers. -/
def noBarrierUnderConditionalOp : GOp → Bool
  | GOp.barrier _ => true
  | GOp.affineIf t e =>
      (barrierScopesBlk t).isEmpty && (barrierScopesBlk e).isEmpty
  | GOp.scfIf t e =>
      (barrierScopesBlk t).isEmpty && (barrierScopesBlk e).isEmpty
  | GOp.forOp b => noBarrierUnderConditionalBlk b
  | GOp.leaf => true

/-- No barrier in the block has a conditional ancestor. -/
def noBarrierUnderConditionalBlk : List GOp → Bool
  | [] => true
  | op :: rest => noBarrierUnderConditionalOp op && noBarrierUnderConditionalBlk rest
end

/-! ### Selection of the highest conditional ancestor

`ConditionalBarrierHoistingPattern::GetAncestorIfOp` (lines 757–772)
combines the highest `affine.if` ancestor and the highest `scf.if`
ancestor of the barrier.  An ancestor chain is modelled outermost-first as
a list of ancestor kinds; an ancestor is identified by its index in the
chain, so index `a` is an ancestor of index `s` (MLIR
`Operation::isAncestor`, which counts an op as its own ancestor) exactly
when `a ≤ s`. -/
inductive AncestorKind where
  | affineIfK
  | scfIfK
  | otherK
  deriving DecidableEq, Repr

/-- Whether an ancestor is one of the two conditional constructs. -/
def isConditionalKind : AncestorKind → Bool
  | AncestorKind.affineIfK => true
  | AncestorKind.scfIfK => true
  | AncestorKind.otherK => false

/-- `Modelled from the spec:` `utilir::GetHighestAncestorOfType<OpType>`
lives in IRUtil, which is not among the provided sources; per the spec
(§4.3, "find the highest ancestor operation of the barrier") it returns
the topmost ancestor of the given kind, i.e. the first match in the
outermost-first chain. -/
def getHighestAncestorOfKind (k : AncestorKind) : List AncestorKind → Option Nat
  | [] => none
  | a :: rest =>
      if a = k then some 0
      else (getHighestAncestorOfKind k rest).map (· + 1)

/-- Embedding of `ConditionalBarrierHoistingPattern::GetAncestorIfOp`
(lines 757–772): when both an `affine.if` and an `scf.if` ancestor exist,
return the one that is an ancestor of the other (`isAncestor`, i.e. the
outer one by containment); otherwise whichever exists. -/
def getAncestorIfOp (chain : List AncestorKind) : Option Nat :=
  match getHighestAncestorOfKind AncestorKind.affineIfK chain,
        getHighestAncestorOfKind AncestorKind.scfIfK chain with
  | some a, some s => some (if a ≤ s then a else s)
  | some a, none => some a
  | none, some s => some s
  | none, none => none

/-- The outermost conditional ancestor of any kind: first conditional in
the outermost-first chain. -/
def firstConditionalIdx : List AncestorKind → Option Nat
  | [] => none
  | a :: rest =>
      if isConditionalKind a then some 0
      else (firstConditionalIdx rest).map (· + 1)

/-! ## Pass selection (createAcceraToGPUPass) -/

/-- The `accera::value::ExecutionRuntime` enumeration, whose values and
order are those of `Runtime` in ExecutionOptions.h (`enum class Runtime :
int { NONE, CUDA, ROCM, VULKAN, OPENMP, DEFAULT }`).  The C++ enum has
underlying type `int`, so the pass-selection switch is modelled on `Int`
to capture values outside the declared enumerators. -/
def runtimeNONE : Int := 0
def runtimeCUDA : Int := 1
def runtimeROCM : Int := 2
def runtimeVULKAN : Int := 3
def runtimeOPENMP : Int := 4
def runtimeDEFAULT : Int := 5

/-- The three backend pipelines the dispatcher can instantiate. -/
inductive GpuLoweringPass where
  | acceraToROCDL
  | acceraToNVVM
  | acceraToSPIRV
  deriving DecidableEq, Repr

/-- Embedding of `createAcceraToGPUPass` (AcceraToGPUPass.cpp lines
1008–1029): DEFAULT falls through to ROCM (→ ROCDL pass), CUDA → NVVM
pass, VULKAN → SPIRV pass, and NONE/OPENMP fall through to the default
case, which returns a null `unique_ptr` (modelled as `none`). -/
def createAcceraToGPUPass (runtime : Int) : Option GpuLoweringPass :=
  if runtime = runtimeDEFAULT then some GpuLoweringPass.acceraToROCDL
  else if runtime = runtimeROCM then some GpuLoweringPass.acceraToROCDL
  else if runtime = runtimeCUDA then some GpuLoweringPass.acceraToNVVM
  else if runtime = runtimeVULKAN then some GpuLoweringPass.acceraToSPIRV
  else none

/-! ## Device/host launcher pairing (CreateDeviceFuncLauncherPairPattern) -/

/-- The `vir::ExecutionRuntime` attribute values (same enumerators as
`Runtime` in ExecutionOptions.h). -/
inductive ExecRuntimeAttr where
  | NONE
  | CUDA
  | ROCM
  | VULKAN
  | OPENMP
  | DEFAULT
  deriving DecidableEq, Repr

/-- The `vir::ExecutionTarget` attribute values. -/
inductive ExecTargetAttr where
  | CPU
  | GPU
  deriving DecidableEq, Repr

/-- A non-terminator op in a host/intermediate function body: a call to a
named function (`mlir::CallOp`), a kernel launch naming a GPU function
(`gpu::LaunchFuncOp`), or anything else. -/
inductive HostBodyOp where
  | callOp (callee : String)
  | launchFuncOp (kernel : String)
  | otherOp
  deriving DecidableEq, Repr

/-- A host-side `mlir::FuncOp`: symbol name, the `ir::HeaderDeclAttrName`
and `ir::RawPointerAPIAttrName` unit attributes, the execution-runtime
attribute, and the (single) block's non-terminator ops in order. -/
structure HostFuncOp where
  name : String
  headerDecl : Bool
  rawPointerAPI : Bool
  execRuntime : Option ExecRuntimeAttr
  body : List HostBodyOp
  deriving DecidableEq, Repr

/-- A `gpu::GPUFuncOp` kernel with the attributes the pairing pattern
reads and writes. -/
structure GpuFuncOp where
  name : String
  execRuntime : Option ExecRuntimeAttr
  execTarget : Option ExecTargetAttr
  headerDecl : Bool
  rawPointerAPI : Bool
  deriving DecidableEq, Repr

/-- A module: its `FuncOp`s and its `gpu::GPUFuncOp`s. -/
structure GpuModule where
  funcs : List HostFuncOp
  gpuFuncs : List GpuFuncOp
  deriving DecidableEq, Repr

/-- Symbol-table lookup of a `FuncOp` by name (first match). -/
def lookupFunc : List HostFuncOp → String → Option HostFuncOp
  | [], _ => none
  | f :: rest, n => if f.name = n then some f else lookupFunc rest n

/-- Symbol-table lookup of a `gpu::GPUFuncOp` by name (first match). -/
def lookupGpuFunc : List GpuFuncOp → String → Option GpuFuncOp
  | [], _ => none
  | k :: rest, n => if k.name = n then some k else lookupGpuFunc rest n

/-- `SymbolTable::lookupNearestSymbolFrom` for the collision check (line
215): does any symbol of either kind already carry this name? -/
def symbolExists (m : GpuModule) (n : String) : Bool :=
  (lookupFunc m.funcs n).isSome || (lookupGpuFunc m.gpuFuncs n).isSome

/-- The attribute/rename updates performed on the launched kernel (lines
217–225): execution runtime, execution target GPU, header visibility,
raw-pointer API, and the new name. -/
def retargetGpuFunc (target : ExecRuntimeAttr) (newName : String)
    (k : GpuFuncOp) : GpuFuncOp :=
  { k with
    name := newName
    execRuntime := some target
    execTarget := some ExecTargetAttr.GPU
    headerDecl := true
    rawPointerAPI := true }

/-- `launchOp.kernelAttr(...)` (lines 226–228): the launch op — the last
non-terminator op of the callee body — gets its kernel symbol reference
replaced by the new name. -/
def updateLastLaunch (newName : String) : List HostBodyOp → List HostBodyOp
  | [] => []
  | [HostBodyOp.launchFuncOp _] => [HostBodyOp.launchFuncOp newName]
  | [op] => [op]
  | op :: rest => op :: updateLastLaunch newName rest

/-- The launch-reference fix-up on the callee (lines 226–228): the
function named `callee` gets its trailing launch reference updated; all
other functions are untouched. -/
def launcherCalleeFix (callee newName : String) (f : HostFuncOp) : HostFuncOp :=
  if f.name = callee then
    { f with body := updateLastLaunch newName f.body }
  else f

/-- The runtime tag on the host function (lines 230–232): the function
named `hostName` gets the resolved execution-runtime attribute; all other
functions are untouched. -/
def launcherHostTag (target : ExecRuntimeAttr) (hostName : String)
    (f : HostFuncOp) : HostFuncOp :=
  if f.name = hostName then { f with execRuntime := some target } else f

/-- The combined update the pairing rewrite makes to each `FuncOp`. -/
def launcherFuncUpdate (target : ExecRuntimeAttr)
    (hostName callee newName : String) (f : HostFuncOp) : HostFuncOp :=
  launcherHostTag target hostName (launcherCalleeFix callee newName f)

/-- The update the pairing rewrite makes to each `gpu::GPUFuncOp`: the
launched kernel is renamed and re-attributed (lines 217–225); all other
kernels are untouched. -/
def launcherGpuUpdate (target : ExecRuntimeAttr)
    (kernelName newName : String) (k : GpuFuncOp) : GpuFuncOp :=
  if k.name = kernelName then retargetGpuFunc target newName k else k

/-- Embedding of `CreateDeviceFuncLauncherPairPattern::matchAndRewrite`
(AcceraToGPUPass.cpp lines 187–243), applied to the function named
`hostName` of module `m` with target runtime `target`.  `none` models
`failure()` (a silent non-match).  The match requires: the host function
carries the header-visibility and raw-pointer attributes; its body's only
non-terminator op is a call; the callee resolves and its last op before
the terminator is a `gpu.launch_func`; the launched kernel resolves; and
no symbol already has the name `<host> + "__gpu__"`.  On success the
kernel is renamed and re-attributed, the launch reference is updated, and
the host function is tagged with the resolved runtime (lines 230–232). -/
def createDeviceFuncLauncherPair (target : ExecRuntimeAttr) (m : GpuModule)
    (hostName : String) : Option GpuModule :=
  match lookupFunc m.funcs hostName with
  | none => none
  | some op =>
    if !op.headerDecl || !op.rawPointerAPI then none
    else
      match op.body with
      | [HostBodyOp.callOp callee] =>
        match lookupFunc m.funcs callee with
        | none => none
        | some calleeFn =>
          match calleeFn.body.getLast? with
          | some (HostBodyOp.launchFuncOp kernelName) =>
            match lookupGpuFunc m.gpuFuncs kernelName with
            | none => none
            | some _ =>
              let gpuTargetFuncName := hostName ++ "__gpu__"
              if symbolExists m gpuTargetFuncName then none
              else
                some
                  { funcs := m.funcs.map
                      (launcherFuncUpdate target hostName callee gpuTargetFuncName)
                    gpuFuncs := m.gpuFuncs.map
                      (launcherGpuUpdate target kernelName gpuTargetFuncName) }
          | _ => none
      | _ => none

/-! ## MFMA fragment operations (ROCDL path) -/

/-- The fragment element types relevant to the MFMA conversions; the
`otherType` value stands for any MLIR type that is neither f16 nor f32. -/
inductive MFMAElemType where
  | f16
  | f32
  | otherType
  deriving DecidableEq, Repr

/-- The four supported tile shapes of `MFMAMatrixType::Shape` named in the
compute conversion's switch (lines 632–645).  `Modelled from the spec:`
the full shape enumeration is declared in ValueMFMAOp.h, which is not
among the provided sources; per the spec (§4.6) there are exactly four
supported shapes and "an unrecognized shape is a pass failure", so every
other enumeration value is collapsed into `unrecognized` (the switch's
`default:`). -/
inductive MFMAShape where
  | T4x16x64
  | T2x32x64
  | T4x4x32
  | T2x2x16
  | unrecognized
  deriving DecidableEq, Repr

/-- The possible outcomes of the ROCDL load/store matchAndRewrite
functions on the portion modelled here: a reported match failure
(`rewriter.notifyMatchFailure`, issued before any op is created), a
successful lowering for a recognized operand role, or — for the load with
an operand role outside AOp/BOp/COp — proceeding with the
default-constructed (null) `AffineMap()` of the `StringSwitch` (line 410,
`/*this is really an error */`), which is then composed at line 421. -/
inductive RocdlMatchOutcome where
  | matchFailure (msg : String)
  | lowered (role : String)
  | nullMapComposition
  deriving DecidableEq, Repr

/-- Embedding of the shape-validation and operand-role dispatch of
`ValueMFMALoadOpToRocDLConversion::matchAndRewrite` (lines 324–470).
`validShape` is the result of `mfmaMatrixType.isValidShape()` (declared in
ValueMFMAOp.h, outside the provided sources, hence a parameter).  An
invalid shape is rejected at lines 337–340 before any IR is created; role
"COp" takes the accumulator branch (lines 353–372); roles "AOp"/"BOp"
take the `StringSwitch` branch (lines 407–410); any other role falls into
the switch's `Default(AffineMap())`, after which the null map is composed
(line 421) rather than a match failure being reported. -/
def valueMFMALoadOpToRocDLConversion (validShape : Bool) (operand : String) :
    RocdlMatchOutcome :=
  if !validShape then RocdlMatchOutcome.matchFailure "unhandled matrix shape"
  else if operand = "COp" then RocdlMatchOutcome.lowered "COp"
  else if operand = "AOp" then RocdlMatchOutcome.lowered "AOp"
  else if operand = "BOp" then RocdlMatchOutcome.lowered "BOp"
  else RocdlMatchOutcome.nullMapComposition

/-- Embedding of the validation portion of
`ValueMFMAStoreOpToRocDLConversion::matchAndRewrite` (lines 477–540): an
invalid shape is rejected at lines 489–492 before any IR is created; the
operand role is never examined (the store always uses the accumulator
layout of `GetRowColOffsetForCLoadStore`). -/
def valueMFMAStoreOpToRocDLConversion (validShape : Bool) : RocdlMatchOutcome :=
  if !validShape then RocdlMatchOutcome.matchFailure "unhandled matrix shape"
  else RocdlMatchOutcome.lowered "COp"

/-- The per-iteration instructions of the load/store loops that matter for
the precision-adaptation rule. -/
inductive MFMALoopInstr where
  | memrefLoad
  | fpExt
  | insertElement
  | extractElement
  | fpTrunc
  | memrefStore
  deriving DecidableEq, Repr

/-- Lines 369–371: for a COp load with f16 element type, the loaded
element type is widened to f32 before the loop is built. -/
def cOpLoadElementType (matElem : MFMAElemType) : MFMAElemType :=
  if matElem = MFMAElemType.f16 then MFMAElemType.f32 else matElem

/-- The body of the load loop built by
`ValueMFMALoadOpToRocDLConversion` (lines 456–467): a `memref.load`,
then — exactly when the working element type is f32 while the fragment's
element type is f16 (line 458) — an `FPExtOp`, then the
`vector.insertelement`. -/
def mfmaLoadLoopBody (operand : String) (matElem : MFMAElemType) :
    List MFMALoopInstr :=
  let elementType :=
    if operand = "COp" then cOpLoadElementType matElem else matElem
  [MFMALoopInstr.memrefLoad]
    ++ (if elementType = MFMAElemType.f32 ∧ matElem = MFMAElemType.f16 then
          [MFMALoopInstr.fpExt]
        else [])
    ++ [MFMALoopInstr.insertElement]

/-- The body of the store loop built by
`ValueMFMAStoreOpToRocDLConversion` (lines 526–537): a
`vector.extractelement`, then — exactly when the stored value's element
type is f32 while the fragment's element type is f16 (line 529) — an
`FPTruncOp`, then the `memref.store`. -/
def mfmaStoreLoopBody (valueElemType matElem : MFMAElemType) :
    List MFMALoopInstr :=
  [MFMALoopInstr.extractElement]
    ++ (if valueElemType = MFMAElemType.f32 ∧ matElem = MFMAElemType.f16 then
          [MFMALoopInstr.fpTrunc]
        else [])
    ++ [MFMALoopInstr.memrefStore]

/-- The ROCDL compute intrinsic chosen for f16 inputs by the switch at
lines 632–645. -/
def rocdlIntrinsicF16 : MFMAShape → Option String
  | MFMAShape.T4x16x64 => some "rocdl.mfma.f32.16x16x4f16"
  | MFMAShape.T2x32x64 => some "rocdl.mfma.f32.32x32x4f16"
  | MFMAShape.T4x4x32 => some "rocdl.mfma.f32.32x32x8f16"
  | MFMAShape.T2x2x16 => some "rocdl.mfma.f32.16x16x16f16"
  | MFMAShape.unrecognized => none

/-- The ROCDL compute intrinsic chosen for f32 inputs by the switch at
lines 654–667. -/
def rocdlIntrinsicF32 : MFMAShape → Option String
  | MFMAShape.T4x16x64 => some "rocdl.mfma.f32.16x16x1f32"
  | MFMAShape.T2x32x64 => some "rocdl.mfma.f32.32x32x1f32"
  | MFMAShape.T4x4x32 => some "rocdl.mfma.f32.32x32x2f32"
  | MFMAShape.T2x2x16 => some "rocdl.mfma.f32.16x16x4f32"
  | MFMAShape.unrecognized => none

/-- Result of `ValueMFMAComputeToRocDLConversion`: the emitted
`AffineForOp` (its bounds and step, lines 601–610) together with the one
compute intrinsic invoked per iteration, or a `failure()`. -/
inductive MFMAComputeLowering where
  | loweredLoop (lowerBound upperBound step : Int) (intrinsic : String)
  | failure
  deriving DecidableEq, Repr

/-- Embedding of `ValueMFMAComputeToRocDLConversion::matchAndRewrite`
(lines 568–678): `passIncrements` is 4 for f16 input element type and 1
otherwise (line 601); the loop runs from 0 to the thread-tile size with
that step (line 610); per iteration exactly one shape-selected intrinsic
is invoked; an unrecognized shape (the switch defaults at lines 646–647
and 668–669) or an element type that is neither f16 nor f32 (lines
672–675) returns `failure()`. -/
def valueMFMAComputeToRocDLConversion (inputType : MFMAElemType)
    (shape : MFMAShape) (threadTileSize : Int) : MFMAComputeLowering :=
  let passIncrements : Int := if inputType = MFMAElemType.f16 then 4 else 1
  match inputType with
  | MFMAElemType.f16 =>
      match rocdlIntrinsicF16 shape with
      | some intrinsic =>
          MFMAComputeLowering.loweredLoop 0 threadTileSize passIncrements intrinsic
      | none => MFMAComputeLowering.failure
  | MFMAElemType.f32 =>
      match rocdlIntrinsicF32 shape with
      | some intrinsic =>
          MFMAComputeLowering.loweredLoop 0 threadTileSize passIncrements intrinsic
      | none => MFMAComputeLowering.failure
  | MFMAElemType.otherType => MFMAComputeLowering.failure

/-! ## MFMA fragment operations (NVVM / CUDA-class path) -/

/-- What an NVVM-path MFMA conversion pattern does to the matched op. -/
inductive NvvmRewriteAction where
  | keepUnchanged
  | eraseOp
  | replaceWith (opName : String) (resultType : Option String)
  deriving DecidableEq, Repr

/-- Outcome of an NVVM-path MFMA conversion pattern: whether it reported
success, the action on the matched op, how many address-computation ops it
created, and how many replacement values it produced. -/
structure NvvmPatternResult where
  succeeded : Bool
  action : NvvmRewriteAction
  createdAddressOps : Nat
  replacementValues : Nat
  deriving DecidableEq, Repr

/-- Embedding of `ValueMFMAStoreOpToGPUConversion::matchAndRewrite`
(lines 681–691): the body is just `return success();` — the op is not
rewritten at all. -/
def valueMFMAStoreOpToGPUConversion : NvvmPatternResult :=
  ⟨true, NvvmRewriteAction.keepUnchanged, 0, 0⟩

/-- Embedding of `ValueMFMALoadOpToGPUConversion::matchAndRewrite`
(lines 693–704): `rewriter.eraseOp(op)` then success, with no replacement
values and no address computation. -/
def valueMFMALoadOpToGPUConversion : NvvmPatternResult :=
  ⟨true, NvvmRewriteAction.eraseOp, 0, 0⟩

/-- Embedding of `ValueMFMAConstantOpToGPUConversion::matchAndRewrite`
(lines 706–717): `rewriter.eraseOp(op)` then success. -/
def valueMFMAConstantOpToGPUConversion : NvvmPatternResult :=
  ⟨true, NvvmRewriteAction.eraseOp, 0, 0⟩

/-- Embedding of `ValueMFMAComputeToGPUConversion::matchAndRewrite`
(lines 718–729): the op is replaced by a single
`gpu::SubgroupMmaComputeOp` whose result type is the type of
`operands[2]` (the accumulator operand). -/
def valueMFMAComputeToGPUConversion (operandTypes : List String) :
    NvvmPatternResult :=
  ⟨true,
   NvvmRewriteAction.replaceWith "gpu.subgroup_mma_compute"
     (operandTypes.get? 2),
   0, 1⟩

/-! # Theorems -/

/-! ## Helper lemmas about barrier hoisting -/

theorem barrierScopesBlk_append (xs ys : List GOp) :
    barrierScopesBlk (xs ++ ys) = barrierScopesBlk xs ++ barrierScopesBlk ys := by
  induction xs with
  | nil => rfl
  | cons op rest ih => simp [barrierScopesBlk, ih]

theorem hoistBlk_append (xs ys : List GOp) :
    hoistBlk (xs ++ ys) = hoistBlk xs ++ hoistBlk ys := by
  induction xs with
  | nil => rfl
  | cons op rest ih => simp [hoistBlk, ih]

mutual

theorem barrierScopes_purgeOp (op : GOp) : barrierScopesBlk (purgeOp op) = [] := by
  cases op with
  | barrier s => rfl
  | affineIf t e =>
      simp [purgeOp, barrierScopesBlk, barrierScopesOp,
            barrierScopes_purgeBlk t, barrierScopes_purgeBlk e]
  | scfIf t e =>
      simp [purgeOp, barrierScopesBlk, barrierScopesOp,
            barrierScopes_purgeBlk t, barrierScopes_purgeBlk e]
  | forOp b =>
      simp [purgeOp, barrierScopesBlk, barrierScopesOp, barrierScopes_purgeBlk b]
  | leaf => rfl

theorem barrierScopes_purgeBlk (b : List GOp) : barrierScopesBlk (purgeBlk b) = [] := by
  cases b with
  | nil => rfl
  | cons op rest =>
      simp [purgeBlk, barrierScopesBlk_append,
            barrierScopes_purgeOp op, barrierScopes_purgeBlk rest]

end

mutual

theorem purgeOp_no_barrier (op : GOp) (h : barrierScopesOp op = []) :
    purgeOp op = [op] := by
  cases op with
  | barrier s => simp [barrierScopesOp] at h
  | affineIf t e =>
      simp only [barrierScopesOp, List.append_eq_nil] at h
      simp [purgeOp, purgeBlk_no_barrier t h.1, purgeBlk_no_barrier e h.2]
  | scfIf t e =>
      simp only [barrierScopesOp, List.append_eq_nil] at h
      simp [purgeOp, purgeBlk_no_barrier t h.1, purgeBlk_no_barrier e h.2]
  | forOp b =>
      simp only [barrierScopesOp] at h
      simp [purgeOp, purgeBlk_no_barrier b h]
  | leaf => rfl

theorem purgeBlk_no_barrier (b : List GOp) (h : barrierScopesBlk b = []) :
    purgeBlk b = b := by
  cases b with
  | nil => rfl
  | cons op rest =>
      simp only [barrierScopesBlk, List.append_eq_nil] at h
      simp [purgeBlk, purgeOp_no_barrier op h.1, purgeBlk_no_barrier rest h.2]

end

mutual

theorem hoistOp_id_aux (op : GOp) (h : noBarrierUnderConditionalOp op = true) :
    hoistOp op = [op] := by
  cases op with
  | barrier s => rfl
  | affineIf t e =>
      simp only [noBarrierUnderConditionalOp, Bool.and_eq_true,
                 List.isEmpty_iff] at h
      simp [hoistOp, h.1, h.2, purgeBlk_no_barrier t h.1, purgeBlk_no_barrier e h.2]
  | scfIf t e =>
      simp only [noBarrierUnderConditionalOp, Bool.and_eq_true,
                 List.isEmpty_iff] at h
      simp [hoistOp, h.1, h.2, purgeBlk_no_barrier t h.1, purgeBlk_no_barrier e h.2]
  | forOp b =>
      simp only [noBarrierUnderConditionalOp] at h
      simp [hoistOp, hoistBlk_id_aux b h]
  | leaf => rfl

theorem hoistBlk_id_aux (b : List GOp) (h : noBarrierUnderConditionalBlk b = true) :
    hoistBlk b = b := by
  cases b with
  | nil => rfl
  | cons op rest =>
      simp only [noBarrierUnderConditionalBlk, Bool.and_eq_true] at h
      simp [hoistBlk, hoistOp_id_aux op h.1, hoistBlk_id_aux rest h.2]

end

theorem getAncestorIfOp_eq_firstConditionalIdx (chain : List AncestorKind) :
    getAncestorIfOp chain = firstConditionalIdx chain := by
  induction chain with
  | nil => rfl
  | cons a rest ih =>
      cases a with
      | affineIfK =>
          unfold getAncestorIfOp
          have hA : getHighestAncestorOfKind AncestorKind.affineIfK
              (AncestorKind.affineIfK :: rest) = some 0 := by
            simp [getHighestAncestorOfKind]
          have hS : getHighestAncestorOfKind AncestorKind.scfIfK
              (AncestorKind.affineIfK :: rest)
              = (getHighestAncestorOfKind AncestorKind.scfIfK rest).map (· + 1) := by
            simp [getHighestAncestorOfKind]
          rw [hA, hS]
          cases getHighestAncestorOfKind AncestorKind.scfIfK rest with
          | none => simp [firstConditionalIdx, isConditionalKind]
          | some s => simp [firstConditionalIdx, isConditionalKind, Nat.zero_le]
      | scfIfK =>
          unfold getAncestorIfOp
          have hA : getHighestAncestorOfKind AncestorKind.affineIfK
              (AncestorKind.scfIfK :: rest)
              = (getHighestAncestorOfKind AncestorKind.affineIfK rest).map (· + 1) := by
            simp [getHighestAncestorOfKind]
          have hS : getHighestAncestorOfKind AncestorKind.scfIfK
              (AncestorKind.scfIfK :: rest) = some 0 := by
            simp [getHighestAncestorOfKind]
          rw [hA, hS]
          cases getHighestAncestorOfKind AncestorKind.affineIfK rest with
          | none => simp [firstConditionalIdx, isConditionalKind]
          | some a =>
              simp only [Option.map_some']
              have hno : ¬ (a + 1 ≤ 0) := by omega
              simp [hno, firstConditionalIdx, isConditionalKind]
      | otherK =>
          unfold getAncestorIfOp
          have hA : getHighestAncestorOfKind AncestorKind.affineIfK
              (AncestorKind.otherK :: rest)
              = (getHighestAncestorOfKind AncestorKind.affineIfK rest).map (· + 1) := by
            simp [getHighestAncestorOfKind]
          have hS : getHighestAncestorOfKind AncestorKind.scfIfK
              (AncestorKind.otherK :: rest)
              = (getHighestAncestorOfKind AncestorKind.scfIfK rest).map (· + 1) := by
            simp [getHighestAncestorOfKind]
          rw [hA, hS]
          have hFirst : firstConditionalIdx (AncestorKind.otherK :: rest)
              = (firstConditionalIdx rest).map (· + 1) := by
            simp [firstConditionalIdx, isConditionalKind]
          rw [hFirst, ← ih]
          unfold getAncestorIfOp
          cases hA' : getHighestAncestorOfKind AncestorKind.affineIfK rest with
          | none =>
              cases hS' : getHighestAncestorOfKind AncestorKind.scfIfK rest with
              | none => rfl
              | some s => rfl
          | some a =>
              cases hS' : getHighestAncestorOfKind AncestorKind.scfIfK rest with
              | none => rfl
              | some s =>
                  simp only [Option.map_some']
                  by_cases hle : a ≤ s
                  · have h1 : a + 1 ≤ s + 1 := by omega
                    simp [hle, h1]
                  · have h1 : ¬ (a + 1 ≤ s + 1) := by omega
                    simp [hle, h1]

theorem hoistOp_conditional (cond : GOp) (s : BarrierScope)
    (hc : isConditionalOp cond = true) (hbs : barrierScopesOp cond = [s]) :
    hoistOp cond = GOp.barrier s :: (purgeOp cond ++ [GOp.barrier s]) := by
  cases cond with
  | barrier t => simp [isConditionalOp] at hc
  | affineIf t e =>
      simp only [barrierScopesOp] at hbs
      simp [hoistOp, purgeOp, hbs]
  | scfIf t e =>
      simp only [barrierScopesOp] at hbs
      simp [hoistOp, purgeOp, hbs]
  | forOp b => simp [isConditionalOp] at hc
  | leaf => simp [isConditionalOp] at hc

/-! ## Claim theorems -/

/-- C1: a barrier with at least one conditional (affine-if or scf-if)
ancestor is hoisted to the highest conditional ancestor: the ancestor
selection returns the outermost conditional in the ancestor chain (when
both kinds are ancestors, the outer one by containment); and hoisting a
conditional containing one barrier of scope `s` places one clone
immediately before and one immediately after the conditional, erases the
original, and leaves zero barriers inside the conditional. -/
theorem conditionalBarrierHoistingPattern_spec :
    (∀ chain : List AncestorKind,
        getAncestorIfOp chain = firstConditionalIdx chain)
    ∧ (∀ (cond : GOp) (s : BarrierScope) (pre post : List GOp),
        isConditionalOp cond = true →
        barrierScopesOp cond = [s] →
        hoistBlk (pre ++ cond :: post)
            = hoistBlk pre
              ++ (GOp.barrier s :: (purgeOp cond ++ [GOp.barrier s]))
              ++ hoistBlk post
          ∧ barrierScopesBlk (purgeOp cond) = []) := by
  constructor
  · exact getAncestorIfOp_eq_firstConditionalIdx
  · intro cond s pre post hc hbs
    constructor
    · rw [hoistBlk_append]
      rw [show hoistBlk (cond :: post) = hoistOp cond ++ hoistBlk post from by
            simp [hoistBlk]]
      rw [hoistOp_conditional cond s hc hbs]
      simp
    · exact barrierScopes_purgeOp cond

/-- Witness for C1 at a concrete input: an scf-if whose then-region holds
an affine-if containing one block-scope barrier, between two other ops. -/
theorem conditionalBarrierHoistingPattern_witness :
    isConditionalOp
        (GOp.scfIf [GOp.affineIf [GOp.barrier BarrierScope.Block] []] []) = true
    ∧ barrierScopesOp
        (GOp.scfIf [GOp.affineIf [GOp.barrier BarrierScope.Block] []] [])
        = [BarrierScope.Block]
    ∧ (hoistBlk ([GOp.leaf]
          ++ GOp.scfIf [GOp.affineIf [GOp.barrier BarrierScope.Block] []] []
             :: [GOp.forOp []])
          = hoistBlk [GOp.leaf]
            ++ (GOp.barrier BarrierScope.Block
                :: (purgeOp (GOp.scfIf
                      [GOp.affineIf [GOp.barrier BarrierScope.Block] []] [])
                    ++ [GOp.barrier BarrierScope.Block]))
            ++ hoistBlk [GOp.forOp []]
        ∧ barrierScopesBlk (purgeOp (GOp.scfIf
            [GOp.affineIf [GOp.barrier BarrierScope.Block] []] [])) = []) :=
  ⟨by decide, by decide,
   conditionalBarrierHoistingPattern_spec.2 _ _ _ _ (by decide) (by decide)⟩

/-- C2: barrier op selection.  On the SPIR-V backend a block-scope
barrier lowers to a workgroup control barrier, a warp-scope barrier to a
subgroup control barrier with subgroup-level memory semantics, and the
threadfence scope is a reported match failure; on the GPU (ROCDL/NVVM)
backend a block-scope barrier lowers to `gpu.barrier`, the threadfence
scope to a sequentially-consistent agent-scope `llvm.fence`, and the warp
scope is a reported match failure. -/
theorem valueBarrierConversion_spec :
    valueBarrierToSPIRVBarrierConversion BarrierScope.Block
        = some ⟨SpirvScope.Workgroup, SpirvScope.Workgroup,
                [SpirvMemorySemantics.AcquireRelease]⟩
    ∧ valueBarrierToSPIRVBarrierConversion BarrierScope.Warp
        = some ⟨SpirvScope.Subgroup, SpirvScope.Subgroup,
                [SpirvMemorySemantics.AcquireRelease,
                 SpirvMemorySemantics.SubgroupMemory]⟩
    ∧ valueBarrierToSPIRVBarrierConversion BarrierScope.Threadfence = none
    ∧ valueBarrierToGPUBarrierConversion BarrierScope.Block
        = some GpuBarrierLowering.gpuBarrier
    ∧ valueBarrierToGPUBarrierConversion BarrierScope.Threadfence
        = some (GpuBarrierLowering.llvmFence "seq_cst" "agent")
    ∧ valueBarrierToGPUBarrierConversion BarrierScope.Warp = none :=
  ⟨rfl, rfl, rfl, rfl, rfl, rfl⟩

/-- C9: the barrier-hoisting rewrite is idempotent: on a block in which
no barrier has a conditional ancestor, hoisting is a no-op. -/
theorem conditionalBarrierHoisting_idempotent (b : List GOp)
    (h : noBarrierUnderConditionalBlk b = true) : hoistBlk b = b :=
  hoistBlk_id_aux b h

/-- Witness for C9 at a concrete already-hoisted block: a barrier outside
any conditional, a barrier-free conditional, and a barrier inside a plain
loop. -/
theorem conditionalBarrierHoisting_idempotent_witness :
    noBarrierUnderConditionalBlk
        [GOp.barrier BarrierScope.Block, GOp.affineIf [GOp.leaf] [],
         GOp.forOp [GOp.barrier BarrierScope.Warp]] = true
    ∧ hoistBlk
        [GOp.barrier BarrierScope.Block, GOp.affineIf [GOp.leaf] [],
         GOp.forOp [GOp.barrier BarrierScope.Warp]]
        = [GOp.barrier BarrierScope.Block, GOp.affineIf [GOp.leaf] [],
           GOp.forOp [GOp.barrier BarrierScope.Warp]] :=
  ⟨by decide, conditionalBarrierHoisting_idempotent _ (by decide)⟩

/-- C3: with a statically declared block size, a thread-id query on a
valid axis lowers to the raw hardware thread index modulo the declared
bound, and a block-dimension query lowers to the bound as an integer
literal (both in the printer and in `ResolveBlockDimPattern`); with the
attribute absent or an axis outside x/y/z, the printer emits the
unmodified raw hardware read and the pattern declines, leaving the raw
hardware read op. -/
theorem dimensionQueryLowering_spec :
    (∀ (bs : Dim3) (dim : String), dimIndexToInteger dim ≠ -1 →
        printThreadIdOp (some bs) dim
            = PrintedIndex.modRead ("threadIdx." ++ dim)
                (bs.get (dimIndexToInteger dim))
          ∧ printBlockDimOp (some bs) dim
              = PrintedIndex.lit (bs.get (dimIndexToInteger dim))
          ∧ resolveBlockDimPattern true (some bs) dim
              = some (bs.get (dimIndexToInteger dim)))
    ∧ (∀ dim : String,
        printThreadIdOp none dim = PrintedIndex.rawRead ("threadIdx." ++ dim)
          ∧ printBlockDimOp none dim = PrintedIndex.rawRead ("blockDim." ++ dim)
          ∧ resolveBlockDimPattern true none dim = none)
    ∧ (∀ (bs : Dim3) (dim : String), dimIndexToInteger dim = -1 →
        printThreadIdOp (some bs) dim = PrintedIndex.rawRead ("threadIdx." ++ dim)
          ∧ printBlockDimOp (some bs) dim
              = PrintedIndex.rawRead ("blockDim." ++ dim)
          ∧ resolveBlockDimPattern true (some bs) dim = none) := by
  refine ⟨?_, ?_, ?_⟩
  · intro bs dim h
    refine ⟨?_, ?_, ?_⟩ <;>
      simp [printThreadIdOp, printBlockDimOp, resolveBlockDimPattern,
            getBlockDim, h]
  · intro dim
    exact ⟨rfl, rfl, rfl⟩
  · intro bs dim h
    refine ⟨?_, ?_, ?_⟩ <;>
      simp [printThreadIdOp, printBlockDimOp, resolveBlockDimPattern,
            getBlockDim, h]

/-- Witness for C3 at the concrete block size (64, 1, 1) and axis "x"
(the spec's §8 scenario: `threadIdx.x mod 64`). -/
theorem dimensionQueryLowering_witness :
    dimIndexToInteger "x" ≠ -1
    ∧ (printThreadIdOp (some ⟨64, 1, 1⟩) "x"
          = PrintedIndex.modRead ("threadIdx." ++ "x")
              ((Dim3.mk 64 1 1).get (dimIndexToInteger "x"))
        ∧ printBlockDimOp (some ⟨64, 1, 1⟩) "x"
            = PrintedIndex.lit ((Dim3.mk 64 1 1).get (dimIndexToInteger "x"))
        ∧ resolveBlockDimPattern true (some ⟨64, 1, 1⟩) "x"
            = some ((Dim3.mk 64 1 1).get (dimIndexToInteger "x"))) :=
  ⟨by decide, dimensionQueryLowering_spec.1 ⟨64, 1, 1⟩ "x" (by decide)⟩

/-- C5 (code bug evidence): with a valid shape, an MFMA load whose
operand role is none of AOp/BOp/COp does not produce a reported match
failure — it falls into the `StringSwitch` default and proceeds to compose
the default-constructed null `AffineMap()`; the shape-validity rejections
of load and store do produce the reported failure. -/
theorem mfmaUnrecognizedRole_nullMap :
    valueMFMALoadOpToRocDLConversion true "DOp"
        = RocdlMatchOutcome.nullMapComposition
    ∧ valueMFMALoadOpToRocDLConversion false "DOp"
        = RocdlMatchOutcome.matchFailure "unhandled matrix shape"
    ∧ valueMFMAStoreOpToRocDLConversion false
        = RocdlMatchOutcome.matchFailure "unhandled matrix shape" :=
  ⟨by decide, by decide, by decide⟩

/-- C6: precision adaptation in the ROCDL fragment load/store loops. For
an accumulator (COp) fragment with 16-bit float element type the load
loop widens the loaded value to 32-bit float right after the load, and
the store loop truncates the 32-bit value to 16-bit right before the
store; for 32-bit float fragments neither loop inserts a conversion. -/
theorem mfmaPrecisionAdaptation_spec :
    mfmaLoadLoopBody "COp" MFMAElemType.f16
        = [MFMALoopInstr.memrefLoad, MFMALoopInstr.fpExt,
           MFMALoopInstr.insertElement]
    ∧ mfmaStoreLoopBody MFMAElemType.f32 MFMAElemType.f16
        = [MFMALoopInstr.extractElement, MFMALoopInstr.fpTrunc,
           MFMALoopInstr.memrefStore]
    ∧ mfmaLoadLoopBody "COp" MFMAElemType.f32
        = [MFMALoopInstr.memrefLoad, MFMALoopInstr.insertElement]
    ∧ mfmaStoreLoopBody MFMAElemType.f32 MFMAElemType.f32
        = [MFMALoopInstr.extractElement, MFMALoopInstr.memrefStore] :=
  ⟨by decide, by decide, by decide, by decide⟩

/-- C7: the ROCDL fragment compute lowering emits a loop from 0 to the
thread-tile size with step 4 for f16 inputs and step 1 for f32 inputs,
invoking exactly one shape-selected intrinsic per iteration; an
unrecognized shape or a non-f16/f32 element type is a failure, never a
silent skip. -/
theorem mfmaComputeLowering_spec :
    ∀ tts : Int,
      (valueMFMAComputeToRocDLConversion MFMAElemType.f16 MFMAShape.T4x16x64 tts
          = MFMAComputeLowering.loweredLoop 0 tts 4 "rocdl.mfma.f32.16x16x4f16")
      ∧ (valueMFMAComputeToRocDLConversion MFMAElemType.f16 MFMAShape.T2x32x64 tts
          = MFMAComputeLowering.loweredLoop 0 tts 4 "rocdl.mfma.f32.32x32x4f16")
      ∧ (valueMFMAComputeToRocDLConversion MFMAElemType.f16 MFMAShape.T4x4x32 tts
          = MFMAComputeLowering.loweredLoop 0 tts 4 "rocdl.mfma.f32.32x32x8f16")
      ∧ (valueMFMAComputeToRocDLConversion MFMAElemType.f16 MFMAShape.T2x2x16 tts
          = MFMAComputeLowering.loweredLoop 0 tts 4 "rocdl.mfma.f32.16x16x16f16")
      ∧ (valueMFMAComputeToRocDLConversion MFMAElemType.f32 MFMAShape.T4x16x64 tts
          = MFMAComputeLowering.loweredLoop 0 tts 1 "rocdl.mfma.f32.16x16x1f32")
      ∧ (valueMFMAComputeToRocDLConversion MFMAElemType.f32 MFMAShape.T2x32x64 tts
          = MFMAComputeLowering.loweredLoop 0 tts 1 "rocdl.mfma.f32.32x32x1f32")
      ∧ (valueMFMAComputeToRocDLConversion MFMAElemType.f32 MFMAShape.T4x4x32 tts
          = MFMAComputeLowering.loweredLoop 0 tts 1 "rocdl.mfma.f32.32x32x2f32")
      ∧ (valueMFMAComputeToRocDLConversion MFMAElemType.f32 MFMAShape.T2x2x16 tts
          = MFMAComputeLowering.loweredLoop 0 tts 1 "rocdl.mfma.f32.16x16x4f32")
      ∧ (valueMFMAComputeToRocDLConversion MFMAElemType.f16
          MFMAShape.unrecognized tts = MFMAComputeLowering.failure)
      ∧ (valueMFMAComputeToRocDLConversion MFMAElemType.f32
          MFMAShape.unrecognized tts = MFMAComputeLowering.failure)
      ∧ (∀ sh : MFMAShape,
          valueMFMAComputeToRocDLConversion MFMAElemType.otherType sh tts
            = MFMAComputeLowering.failure) :=
  fun _ =>
    ⟨rfl, rfl, rfl, rfl, rfl, rfl, rfl, rfl, rfl, rfl, fun _ => rfl⟩

/-- C8: pass selection.  ROCM and DEFAULT runtimes yield the ROCDL
pipeline, CUDA the NVVM pipeline, VULKAN the SPIR-V pipeline, and NONE,
OPENMP, or any unrecognized runtime value yields no pipeline (a null
result). -/
theorem createAcceraToGPUPass_spec :
    createAcceraToGPUPass runtimeROCM = some GpuLoweringPass.acceraToROCDL
    ∧ createAcceraToGPUPass runtimeDEFAULT = some GpuLoweringPass.acceraToROCDL
    ∧ createAcceraToGPUPass runtimeCUDA = some GpuLoweringPass.acceraToNVVM
    ∧ createAcceraToGPUPass runtimeVULKAN = some GpuLoweringPass.acceraToSPIRV
    ∧ createAcceraToGPUPass runtimeNONE = none
    ∧ createAcceraToGPUPass runtimeOPENMP = none
    ∧ (∀ r : Int, r ≠ runtimeDEFAULT → r ≠ runtimeROCM → r ≠ runtimeCUDA →
        r ≠ runtimeVULKAN → createAcceraToGPUPass r = none) := by
  refine ⟨by decide, by decide, by decide, by decide, by decide, by decide, ?_⟩
  intro r h5 h2 h1 h3
  simp [createAcceraToGPUPass, h5, h2, h1, h3]

/-- Witness for C8 at the concrete unrecognized runtime value 42. -/
theorem createAcceraToGPUPass_witness :
    (42 : Int) ≠ runtimeDEFAULT ∧ createAcceraToGPUPass 42 = none :=
  ⟨by decide,
   createAcceraToGPUPass_spec.2.2.2.2.2.2 42 (by decide) (by decide)
     (by decide) (by decide)⟩

/-- C10: on the NVVM (CUDA-class) pipeline the fragment store pattern
reports success without rewriting the op, the load and constant patterns
erase the op without producing replacement values or address computation,
and the compute pattern alone replaces its op — with a single
`gpu.subgroup_mma_compute` whose result type is that of the third operand
(the accumulator); no per-lane addressing is emitted on this path. -/
theorem nvvmMfmaPatterns_spec :
    valueMFMAStoreOpToGPUConversion
        = ⟨true, NvvmRewriteAction.keepUnchanged, 0, 0⟩
    ∧ valueMFMALoadOpToGPUConversion = ⟨true, NvvmRewriteAction.eraseOp, 0, 0⟩
    ∧ valueMFMAConstantOpToGPUConversion
        = ⟨true, NvvmRewriteAction.eraseOp, 0, 0⟩
    ∧ (∀ operandTypes : List String,
        valueMFMAComputeToGPUConversion operandTypes
          = ⟨true,
             NvvmRewriteAction.replaceWith "gpu.subgroup_mma_compute"
               (operandTypes.get? 2),
             0, 1⟩) :=
  ⟨rfl, rfl, rfl, fun _ => rfl⟩

/-! ## Helper lemmas about launcher pairing -/

theorem lookupFunc_name :
    ∀ (l : List HostFuncOp) (n : String) (f : HostFuncOp),
      lookupFunc l n = some f → f.name = n
  | [], _, _, h => by simp [lookupFunc] at h
  | g :: rest, n, f, h => by
      by_cases hg : g.name = n
      · simp only [lookupFunc, if_pos hg] at h
        injection h with h'
        rw [← h']
        exact hg
      · simp only [lookupFunc, if_neg hg] at h
        exact lookupFunc_name rest n f h

theorem lookupFunc_map_of_namePreserving (g : HostFuncOp → HostFuncOp)
    (hg : ∀ f, (g f).name = f.name) :
    ∀ (l : List HostFuncOp) (n : String),
      lookupFunc (l.map g) n = (lookupFunc l n).map g
  | [], _ => rfl
  | f :: rest, n => by
      by_cases h : f.name = n
      · simp [lookupFunc, hg, h]
      · simp [lookupFunc, hg, h,
              lookupFunc_map_of_namePreserving g hg rest n]

theorem launcherCalleeFix_name (callee newName : String) (f : HostFuncOp) :
    (launcherCalleeFix callee newName f).name = f.name := by
  unfold launcherCalleeFix
  split <;> rfl

theorem launcherHostTag_name (target : ExecRuntimeAttr) (hostName : String)
    (f : HostFuncOp) :
    (launcherHostTag target hostName f).name = f.name := by
  unfold launcherHostTag
  split <;> rfl

theorem launcherFuncUpdate_name (target : ExecRuntimeAttr)
    (hostName callee newName : String) (f : HostFuncOp) :
    (launcherFuncUpdate target hostName callee newName f).name = f.name := by
  unfold launcherFuncUpdate
  rw [launcherHostTag_name, launcherCalleeFix_name]

theorem launcherFuncUpdate_callee (target : ExecRuntimeAttr)
    (hostName callee newName : String) (f : HostFuncOp)
    (hc : f.name = callee) (hnot : callee ≠ hostName) :
    launcherFuncUpdate target hostName callee newName f
      = { f with body := updateLastLaunch newName f.body } := by
  unfold launcherFuncUpdate launcherCalleeFix
  rw [if_pos hc]
  unfold launcherHostTag
  rw [if_neg (fun hx => hnot (hc.symm.trans hx))]

theorem launcherFuncUpdate_host (target : ExecRuntimeAttr)
    (hostName callee newName : String) (f : HostFuncOp)
    (hh : f.name = hostName) (hnot : f.name ≠ callee) :
    launcherFuncUpdate target hostName callee newName f
      = { f with execRuntime := some target } := by
  unfold launcherFuncUpdate launcherCalleeFix
  rw [if_neg hnot]
  unfold launcherHostTag
  rw [if_pos hh]

theorem lookupGpuFunc_launcherGpuUpdate (target : ExecRuntimeAttr)
    (newName : String) :
    ∀ (l : List GpuFuncOp) (kname : String) (kernel : GpuFuncOp),
      lookupGpuFunc l kname = some kernel →
      lookupGpuFunc l newName = none →
      lookupGpuFunc (l.map (launcherGpuUpdate target kname newName)) newName
        = some (retargetGpuFunc target newName kernel)
  | [], _, _, h, _ => by simp [lookupGpuFunc] at h
  | k :: rest, kname, kernel, h, hnone => by
      have hkn : k.name ≠ newName := by
        intro heq
        simp [lookupGpuFunc, heq] at hnone
      have hrest : lookupGpuFunc rest newName = none := by
        simp only [lookupGpuFunc, if_neg hkn] at hnone
        exact hnone
      by_cases hk : k.name = kname
      · simp only [lookupGpuFunc, if_pos hk] at h
        simp only [List.map_cons, launcherGpuUpdate, if_pos hk]
        simp [lookupGpuFunc, retargetGpuFunc]
      · simp only [lookupGpuFunc, if_neg hk] at h
        simp only [List.map_cons, launcherGpuUpdate, if_neg hk]
        simp only [lookupGpuFunc, if_neg hkn]
        have := lookupGpuFunc_launcherGpuUpdate target newName rest kname kernel h hrest
        simp only [launcherGpuUpdate] at this
        exact this

theorem symbolExists_false_elim (m : GpuModule) (n : String)
    (h : symbolExists m n = false) :
    lookupFunc m.funcs n = none ∧ lookupGpuFunc m.gpuFuncs n = none := by
  cases hf : lookupFunc m.funcs n with
  | some f => simp [symbolExists, hf] at h
  | none =>
      cases hg : lookupGpuFunc m.gpuFuncs n with
      | some k => simp [symbolExists, hf, hg] at h
      | none => exact ⟨rfl, rfl⟩

theorem updateLastLaunch_cons_ne_nil (newName : String) (b : HostBodyOp)
    (l : List HostBodyOp) : updateLastLaunch newName (b :: l) ≠ [] := by
  cases l with
  | nil => cases b <;> simp [updateLastLaunch]
  | cons c rest => cases b <;> simp [updateLastLaunch]

theorem updateLastLaunch_getLast (newName : String) :
    ∀ (body : List HostBodyOp) (k : String),
      body.getLast? = some (HostBodyOp.launchFuncOp k) →
      (updateLastLaunch newName body).getLast?
        = some (HostBodyOp.launchFuncOp newName)
  | [], _, h => by simp at h
  | [op], k, h => by
      simp only [List.getLast?_singleton] at h
      injection h with h'
      rw [h']
      rfl
  | op :: b :: l, k, h => by
      rw [List.getLast?_cons_cons] at h
      have ih := updateLastLaunch_getLast newName (b :: l) k h
      have heq : updateLastLaunch newName (op :: b :: l)
          = op :: updateLastLaunch newName (b :: l) := by
        cases op <;> rfl
      rw [heq]
      cases hc : updateLastLaunch newName (b :: l) with
      | nil => exact absurd hc (updateLastLaunch_cons_ne_nil newName b l)
      | cons c rest =>
          rw [List.getLast?_cons_cons, ← hc]
          exact ih

/-- C4: when the launcher-pairing preconditions hold — the host function
is a header-visible raw-pointer entry point, its body's only
non-terminator op is a call, the callee's last op before its terminator
launches a kernel that resolves, and no symbol collides with the target
name — the rewrite succeeds, the launched kernel is renamed to
`<host> + "__gpu__"` and carries the runtime, execution-target,
header-visibility and raw-pointer-API attributes, the launch op's kernel
reference names the renamed kernel, and the host function carries the
resolved runtime attribute. -/
theorem createDeviceFuncLauncherPair_spec
    (target : ExecRuntimeAttr) (m : GpuModule)
    (hostName callee kernelName : String)
    (op calleeFn : HostFuncOp) (kernel : GpuFuncOp)
    (h1 : lookupFunc m.funcs hostName = some op)
    (h2 : op.headerDecl = true) (h3 : op.rawPointerAPI = true)
    (h4 : op.body = [HostBodyOp.callOp callee])
    (h5 : lookupFunc m.funcs callee = some calleeFn)
    (h6 : calleeFn.body.getLast? = some (HostBodyOp.launchFuncOp kernelName))
    (h7 : lookupGpuFunc m.gpuFuncs kernelName = some kernel)
    (h8 : symbolExists m (hostName ++ "__gpu__") = false) :
    ∃ m' : GpuModule,
      createDeviceFuncLauncherPair target m hostName = some m'
      ∧ lookupGpuFunc m'.gpuFuncs (hostName ++ "__gpu__")
          = some { kernel with
                   name := hostName ++ "__gpu__"
                   execRuntime := some target
                   execTarget := some ExecTargetAttr.GPU
                   headerDecl := true
                   rawPointerAPI := true }
      ∧ (∃ calleeFn' : HostFuncOp,
          lookupFunc m'.funcs callee = some calleeFn'
          ∧ calleeFn'.body.getLast?
              = some (HostBodyOp.launchFuncOp (hostName ++ "__gpu__")))
      ∧ (∃ host' : HostFuncOp,
          lookupFunc m'.funcs hostName = some host'
          ∧ host'.execRuntime = some target) := by
  have hopname : op.name = hostName := lookupFunc_name _ _ _ h1
  have hcalleename : calleeFn.name = callee := lookupFunc_name _ _ _ h5
  have hne : callee ≠ hostName := by
    intro heq
    rw [heq, h1] at h5
    have hco : calleeFn = op := by
      injection h5 with h5'
      exact h5'.symm
    rw [hco, h4] at h6
    simp at h6
  have hsym := symbolExists_false_elim m (hostName ++ "__gpu__") h8
  have hgname : ∀ f, (launcherFuncUpdate target hostName callee
      (hostName ++ "__gpu__") f).name = f.name :=
    launcherFuncUpdate_name target hostName callee (hostName ++ "__gpu__")
  have hres : createDeviceFuncLauncherPair target m hostName
      = some ⟨m.funcs.map
                (launcherFuncUpdate target hostName callee (hostName ++ "__gpu__")),
              m.gpuFuncs.map
                (launcherGpuUpdate target kernelName (hostName ++ "__gpu__"))⟩ := by
    unfold createDeviceFuncLauncherPair
    simp only [h1, h2, h3, h4, h5, h6, h7, h8, Bool.not_true, Bool.or_self,
               if_false, Bool.false_eq_true]
  refine ⟨_, hres, ?_, ?_, ?_⟩
  · exact lookupGpuFunc_launcherGpuUpdate target (hostName ++ "__gpu__")
      m.gpuFuncs kernelName kernel h7 hsym.2
  · refine ⟨launcherFuncUpdate target hostName callee (hostName ++ "__gpu__")
      calleeFn, ?_, ?_⟩
    · rw [lookupFunc_map_of_namePreserving _ hgname m.funcs callee, h5]
      rfl
    · rw [launcherFuncUpdate_callee target hostName callee
            (hostName ++ "__gpu__") calleeFn hcalleename hne]
      exact updateLastLaunch_getLast (hostName ++ "__gpu__")
        calleeFn.body kernelName h6
  · refine ⟨launcherFuncUpdate target hostName callee (hostName ++ "__gpu__")
      op, ?_, ?_⟩
    · rw [lookupFunc_map_of_namePreserving _ hgname m.funcs hostName, h1]
      rfl
    · rw [launcherFuncUpdate_host target hostName callee
            (hostName ++ "__gpu__") op hopname
            (by rw [hopname]; exact fun hx => hne hx.symm)]

/-- Witness for C4 on a concrete two-function module: host `foo` calls
`foo_inner`, whose last op launches kernel `kern`. -/
theorem createDeviceFuncLauncherPair_witness :
    ∃ m' : GpuModule,
      createDeviceFuncLauncherPair ExecRuntimeAttr.ROCM
          ⟨[⟨"foo", true, true, none, [HostBodyOp.callOp "foo_inner"]⟩,
            ⟨"foo_inner", false, false, none,
             [HostBodyOp.otherOp, HostBodyOp.launchFuncOp "kern"]⟩],
           [⟨"kern", none, none, false, false⟩]⟩
          "foo" = some m'
      ∧ lookupGpuFunc m'.gpuFuncs ("foo" ++ "__gpu__")
          = some { GpuFuncOp.mk "kern" none none false false with
                   name := "foo" ++ "__gpu__"
                   execRuntime := some ExecRuntimeAttr.ROCM
                   execTarget := some ExecTargetAttr.GPU
                   headerDecl := true
                   rawPointerAPI := true }
      ∧ (∃ calleeFn' : HostFuncOp,
          lookupFunc m'.funcs "foo_inner" = some calleeFn'
          ∧ calleeFn'.body.getLast?
              = some (HostBodyOp.launchFuncOp ("foo" ++ "__gpu__")))
      ∧ (∃ host' : HostFuncOp,
          lookupFunc m'.funcs "foo" = some host'
          ∧ host'.execRuntime = some ExecRuntimeAttr.ROCM) :=
  createDeviceFuncLauncherPair_spec ExecRuntimeAttr.ROCM
    ⟨[⟨"foo", true, true, none, [HostBodyOp.callOp "foo_inner"]⟩,
      ⟨"foo_inner", false, false, none,
       [HostBodyOp.otherOp, HostBodyOp.launchFuncOp "kern"]⟩],
     [⟨"kern", none, none, false, false⟩]⟩
    "foo" "foo_inner" "kern"
    ⟨"foo", true, true, none, [HostBodyOp.callOp "foo_inner"]⟩
    ⟨"foo_inner", false, false, none,
     [HostBodyOp.otherOp, HostBodyOp.launchFuncOp "kern"]⟩
    ⟨"kern", none, none, false, false⟩
    (by decide) (by decide) (by decide) (by decide) (by decide) (by decide)
    (by decide) (by decide)

end AcceraGPU
